import Mathlib

/-!
Verification of the monitor-detect-reconfigure control loop of the 5G
network-slicing lab: the packet-loss anomaly detector (`MonitoringAgent`
in agentic-llm/agents.py), the reconfiguration tool
(`reconfigure_network` in agentic-llm/tools.py), the configuration-agent
state update (`ConfigurationAgent` in agents.py) and the guardrail and
validation layer (nat_wrapper/src/nat_5g_slicing/guardrails.py).

External collaborators (the Kinetica telemetry store, the LLM decision
oracle, the reconfiguration shell script, the operator prompt) are
modelled as inputs: the store by the per-entity aggregate rows its
GROUP BY query returns, the oracle and operator by their answer strings,
and the script by the outcome of each of its invocations.
-/

namespace Slicing

/-- One per-entity aggregate row of the detector's query
(SELECT ue, AVG(loss_percentage) AS avg_loss, MAX(loss_percentage) AS
max_loss, COUNT(*) AS samples ... GROUP BY ue).  Loss percentages are
modelled as exact rationals. -/
structure Row where
  ue : String
  avg_loss : Rat
  max_loss : Rat
  samples : Nat
deriving DecidableEq

/-- Result of one detection pass: the trigger_data dict built by
MonitoringAgent from high_loss_ues.iloc[0]. -/
structure AnomalySnapshot where
  ue : String
  avg_loss : Rat
  max_loss : Rat
  samples : Nat
deriving DecidableEq

/-- The LangGraph State fields threaded through the control loop
(agents.py, class State).  Fields are Options because the Python code
reads them with state.get(key, default) and they start unset. -/
structure ControlState where
  start : Option Nat
  files : Option AnomalySnapshot
  config_value : Option (List String)
  count : Option Nat
  consent : Option String
deriving DecidableEq

/-- PACKET_LOSS_THRESHOLD = 1.5 (percent) in MonitoringAgent. -/
def PACKET_LOSS_THRESHOLD : Rat := mkRat 15 10

/-- CHECK_INTERVAL = 10 (seconds) in MonitoringAgent. -/
def CHECK_INTERVAL : Nat := 10

/-- high_loss_ues = result_df[result_df.max_loss > PACKET_LOSS_THRESHOLD]:
pandas row filtering keeps the input (query) order. -/
def highLossUEs (rows : List Row) : List Row :=
  rows.filter (fun r => decide (PACKET_LOSS_THRESHOLD < r.max_loss))

/-- Insertion step of the descending sort on max_loss.  A row is placed
before an already placed row only when its max_loss is strictly greater,
so rows with equal max_loss keep their relative order. -/
def insertRow (r : Row) : List Row → List Row
  | [] => [r]
  | x :: xs => if r.max_loss < x.max_loss then x :: insertRow r xs else r :: x :: xs

/-- high_loss_ues.sort_values(max_loss, ascending=False): a
deterministic descending comparison sort, modelled as a stable insertion
sort (rows tied on max_loss keep their input order). -/
def sortByMaxLossDesc : List Row → List Row
  | [] => []
  | x :: xs => insertRow x (sortByMaxLossDesc xs)

/-- The first row attaining the maximal max_loss, in list order
(specification device used to characterise the head of the sort). -/
def firstMax : List Row → Option Row
  | [] => none
  | x :: xs =>
    match firstMax xs with
    | none => some x
    | some m => if m.max_loss ≤ x.max_loss then some x else some m

/-- The trigger_data dict: ue, avg_loss, max_loss, samples of one row. -/
def mkSnapshot (r : Row) : AnomalySnapshot :=
  ⟨r.ue, r.avg_loss, r.max_loss, r.samples⟩

/-- The detection pass of one MonitoringAgent loop iteration: filter the
aggregate rows above the threshold; if none remain there is no anomaly;
otherwise sort descending by max_loss and escalate the first row. -/
def detect (rows : List Row) : Option AnomalySnapshot :=
  if (highLossUEs rows).isEmpty then none
  else
    match sortByMaxLossDesc (highLossUEs rows) with
    | [] => none
    | top :: _ => some (mkSnapshot top)

/-- Outcome of one MonitoringAgent loop iteration: either sleep for
CHECK_INTERVAL seconds and poll again, or escalate one anomaly snapshot
to the ConfigurationAgent together with the updated state. -/
inductive MonitorOutcome where
  | wait (seconds : Nat)
  | escalate (snap : AnomalySnapshot) (st2 : ControlState)
deriving DecidableEq

/-- One iteration of the MonitoringAgent polling loop (agents.py).  An
empty query result waits; a detection returns the state dict with
files.metrics set to the snapshot and the remaining keys carried over
with their state.get defaults. -/
def MonitoringAgent (st : ControlState) (rows : List Row) : MonitorOutcome :=
  if rows.isEmpty then MonitorOutcome.wait CHECK_INTERVAL
  else
    match detect rows with
    | none => MonitorOutcome.wait CHECK_INTERVAL
    | some snap =>
      MonitorOutcome.escalate snap
        { start := some (st.start.getD 0),
          files := some snap,
          config_value := some (st.config_value.getD ["50", "50"]),
          count := some (st.count.getD 0),
          consent := some (st.consent.getD "yes") }

/-- Outcome of one subprocess.run of the reconfiguration script; success
means exit code 0 within the 30-second timeout (check=True raises
CalledProcessError on a non-zero exit and TimeoutExpired on timeout). -/
inductive CmdOutcome where
  | success (stdout stderr : String)
  | nonzeroExit (returncode : Int) (stdout stderr : String)
  | timeout (stdout stderr : String)
deriving DecidableEq

def isSuccess : CmdOutcome → Bool
  | CmdOutcome.success _ _ => true
  | _ => false

/-- args_2 of reconfigure_network: the UE string compared (case
sensitively) to UE1 gets the 80/20 split, any other string 20/80. -/
def targetConfig (UE : String) : List String :=
  if UE = "UE1" then ["80", "20"] else ["20", "80"]

/-- A single-quote character (code point 39), used to render Python
str(list-of-str) output. -/
def sq : String := String.mk [Char.ofNat 39]

/-- Join strings with a comma-space separator (str.join semantics). -/
def joinCommaSpace : List String → String
  | [] => ""
  | [x] => x
  | x :: y :: rest => x ++ ", " ++ joinCommaSpace (y :: rest)

/-- Python str applied to a list of strings. -/
def pyStrList (xs : List String) : String :=
  "[" ++ joinCommaSpace (xs.map (fun x => sq ++ x ++ sq)) ++ "]"

/-- Observable behaviour of one reconfigure_network call: the argument
lists of the script invocations actually performed, the seconds slept
after a successful apply (the time.sleep(10) settle delay), and the
string the tool returns. -/
structure ToolRun where
  invocations : List (List String)
  settleDelay : Nat
  result : String
deriving DecidableEq

/-- The reconfigure_network tool (tools.py).  env gives the outcome of
the i-th script invocation.  The script is run first with args_1 =
[20, 20] and, only if that run succeeded, with args_2 = targetConfig UE;
a timeout or non-zero exit aborts and returns the corresponding failure
string.  On success the tool sleeps 10 seconds and returns str(args_2)
(args_2 is never None, so the str(args_1) return is unreachable).
value_1_old and value_2_old are only logged, never used. -/
def reconfigure_network (env : Nat → CmdOutcome) (UE : String)
    (value_1_old value_2_old : Int) : ToolRun :=
  let args_1 : List String := ["20", "20"]
  let args_2 : List String := targetConfig UE
  match env 0 with
  | CmdOutcome.timeout _ _ => ⟨[args_1], 0, "Reconfiguration unsuccessful - timeout"⟩
  | CmdOutcome.nonzeroExit _ _ _ => ⟨[args_1], 0, "Reconfiguration unsuccessful"⟩
  | CmdOutcome.success _ _ =>
    match env 1 with
    | CmdOutcome.timeout _ _ => ⟨[args_1, args_2], 0, "Reconfiguration unsuccessful - timeout"⟩
    | CmdOutcome.nonzeroExit _ _ _ => ⟨[args_1, args_2], 0, "Reconfiguration unsuccessful"⟩
    | CmdOutcome.success _ _ => ⟨[args_1, args_2], 10, pyStrList args_2⟩

/-- Python str.strip(chars): remove any of the given characters from
both ends of the string. -/
def pyStrip (chars : List Char) (s : String) : String :=
  String.mk (((s.data.dropWhile (fun c => chars.contains c)).reverse.dropWhile
    (fun c => chars.contains c)).reverse)

/-- Python str.strip() with no argument: remove whitespace from both
ends. -/
def pyStripWS (s : String) : String :=
  String.mk (((s.data.dropWhile Char.isWhitespace).reverse.dropWhile
    Char.isWhitespace).reverse)

/-- Python str.replace(old, empty) for a single-character old string:
every occurrence of the character is removed. -/
def removeChar (c0 : Char) (s : String) : String :=
  String.mk (s.data.filter (fun c => ¬(c = c0)))

/-- Scanner for Python str.split(comma-space): greedy left-to-right
splitting at each comma-space occurrence, accumulating the current
segment in reverse. -/
def splitCSAux : List Char → List Char → List String
  | acc, [] => [String.mk acc.reverse]
  | acc, ',' :: ' ' :: rest => String.mk acc.reverse :: splitCSAux [] rest
  | acc, c :: rest => splitCSAux (c :: acc) rest

/-- Python str.split on the comma-space separator. -/
def splitCommaSpace (s : String) : List String :=
  splitCSAux [] s.data

/-- The ConfigurationAgent postprocessing of the tool message:
content.strip of the bracket characters (code points 91 and 93), then
removing single quotes, then splitting on comma-space. -/
def parseToolOutput (s : String) : List String :=
  splitCommaSpace (removeChar (Char.ofNat 39) (pyStrip [Char.ofNat 91, Char.ofNat 93] s))

/-- Parse an optionally negated decimal integer (int applied to the
configuration strings). -/
def parseDigits (cs : List Char) : Option Nat :=
  if cs.isEmpty then none
  else
    cs.foldl
      (fun acc c =>
        match acc with
        | none => none
        | some n => if c.isDigit then some (n * 10 + (c.toNat - 48)) else none)
      (some 0)

def strToInt? (s : String) : Option Int :=
  match s.data with
  | '-' :: rest => (parseDigits rest).map (fun n => -(n : Int))
  | cs => (parseDigits cs).map (fun n => (n : Int))

/-- The oracle-confirmation override in ConfigurationAgent: if the
stripped oracle answer is not the detected UE, the detected UE replaces
it; otherwise the (unstripped) oracle answer is kept. -/
def cleanedUE (oracleAnswer detected_ue : String) : String :=
  if pyStripWS oracleAnswer ≠ detected_ue then detected_ue else oracleAnswer

/-- Result of one ConfigurationAgent step: the updated state dict, the
tool run it triggered, and the UE string the tool was invoked with. -/
structure ConfigResult where
  newState : ControlState
  toolRun : ToolRun
  ueUsed : String
deriving DecidableEq

/-- One ConfigurationAgent step (agents.py).  interrupt_after comes from
config.yaml, env is the script-invocation environment, oracleAnswer the
LLM confirmation text, operatorAnswer the reply to the consent prompt.
Returns none on the KeyError and IndexError paths (missing state keys or
a config_value list with fewer than two entries); those paths are
unreachable when the agent runs after a MonitoringAgent escalation.
The prompt interpolates config_value[0] and config_value[1] as the old
values; the tool receives them as integers but never uses them. -/
def ConfigurationAgent (interrupt_after : Nat) (env : Nat → CmdOutcome)
    (oracleAnswer operatorAnswer : String) (st : ControlState) : Option ConfigResult :=
  match st.files, st.config_value, st.count with
  | some metrics, some (a :: b :: _), some count0 =>
    let cleaned := cleanedUE oracleAnswer metrics.ue
    let run := reconfigure_network env cleaned ((strToInt? a).getD 0) ((strToInt? b).getD 0)
    let config_value_updated := parseToolOutput run.result
    let count1 := count0 + 1
    let consent1 := if interrupt_after ≤ count1 then operatorAnswer else "yes"
    some ⟨{ start := some (st.start.getD 0),
            files := st.files,
            config_value := some config_value_updated,
            count := some count1,
            consent := some consent1 }, run, cleaned⟩
  | _, _, _ => none

/-- The initial LangGraph state: no key set yet. -/
def initialState : ControlState := ⟨none, none, none, none, none⟩

/-- One transition of the control-loop orchestrator: either the
monitoring agent escalates an anomaly, or the configuration agent
completes a reconfiguration cycle. -/
inductive Step : ControlState → ControlState → Prop where
  | monitor (st : ControlState) (rows : List Row) (snap : AnomalySnapshot)
      (st2 : ControlState) :
      MonitoringAgent st rows = MonitorOutcome.escalate snap st2 → Step st st2
  | config (ia : Nat) (env : Nat → CmdOutcome) (oans opans : String)
      (st : ControlState) (res : ConfigResult) :
      ConfigurationAgent ia env oans opans st = some res → Step st res.newState

/-- States the control loop can reach from the initial state. -/
def Reachable (st : ControlState) : Prop :=
  Relation.ReflTransGen Step initialState st

/-- Transitions of the control loop in which every external script
invocation succeeded. -/
inductive StepOK : ControlState → ControlState → Prop where
  | monitor (st : ControlState) (rows : List Row) (snap : AnomalySnapshot)
      (st2 : ControlState) :
      MonitoringAgent st rows = MonitorOutcome.escalate snap st2 → StepOK st st2
  | config (ia : Nat) (env : Nat → CmdOutcome) (oans opans : String)
      (st : ControlState) (res : ConfigResult) :
      isSuccess (env 0) = true → isSuccess (env 1) = true →
      ConfigurationAgent ia env oans opans st = some res → StepOK st res.newState

/-- States reachable using only fully successful reconfigurations. -/
def ReachableOK (st : ControlState) : Prop :=
  Relation.ReflTransGen StepOK initialState st

/-- The spec invariant on the configuration pair: exactly two entries,
both parsing as non-negative integers that sum to 100. -/
def configOK (cv : List String) : Bool :=
  match cv with
  | [a, b] =>
    match strToInt? a, strToInt? b with
    | some x, some y => decide (0 ≤ x ∧ 0 ≤ y ∧ x + y = 100)
    | _, _ => false
  | _ => false

/-- guardrails.py ValidationMode. -/
inductive ValidationMode where
  | strict
  | warning
  | disabled
deriving DecidableEq

/-- guardrails.py GuardrailRule (floats modelled as rationals). -/
structure GuardrailRule where
  name : String
  rule_type : String
  description : Option String := none
  field : Option String := none
  pattern : Option String := none
  allowed_values : Option (List String) := none
  min_value : Option Rat := none
  max_value : Option Rat := none
deriving DecidableEq

/-- Python values reaching the output validator: strings, numbers,
dicts, or None (the getattr / dict.get default). -/
inductive PyVal where
  | str (s : String)
  | num (q : Rat)
  | dict (fields : List (String × PyVal))
  | noneVal

/-- output.get(field) for dicts, getattr(output, field, None) otherwise:
a missing key or attribute yields None. -/
def getFieldValue (o : PyVal) (f : String) : PyVal :=
  match o with
  | PyVal.dict kvs => (kvs.lookup f).getD PyVal.noneVal
  | _ => PyVal.noneVal

/-- Python truthiness of rule.field (None and the empty string are
falsy). -/
def fieldTruthy : Option String → Bool
  | some s => !s.data.isEmpty
  | none => false

/-- The value a field-aware rule inspects: the named field when
rule.field is truthy, the output itself otherwise. -/
def ruleTarget (r : GuardrailRule) (output : PyVal) : PyVal :=
  if fieldTruthy r.field then getFieldValue output (r.field.getD "") else output

/-- Python membership of a value in a list of strings: only an equal
string is a member. -/
def pyMem (v : PyVal) (vals : List String) : Bool :=
  match v with
  | PyVal.str s => vals.contains s
  | _ => false

/-- The max_value half of the range rule: comparing a non-numeric value
(None or a string) with a float raises TypeError, modelled as error. -/
def checkMax (target : PyVal) (r : GuardrailRule) : Except Unit Bool :=
  match r.max_value with
  | some m =>
    match target with
    | PyVal.num q => Except.ok (decide (q ≤ m))
    | _ => Except.error ()
  | none => Except.ok true

/-- OutputValidator._apply_rule.  matchO stands for the external re
module: matchO pattern s is bool(re.compile(pattern).match(s)).
Except.error models a Python exception escaping the rule body
(re.compile(None), membership test against None, or a TypeError
comparison); rule kinds other than pattern, enum and range pass. -/
def applyRule (matchO : String → String → Bool) (output : PyVal)
    (r : GuardrailRule) : Except Unit Bool :=
  if r.rule_type = "pattern" then
    match output with
    | PyVal.str s =>
      match r.pattern with
      | some p => Except.ok (matchO p s)
      | none => Except.error ()
    | _ => Except.ok false
  else if r.rule_type = "enum" then
    match r.allowed_values with
    | some vals => Except.ok (pyMem (ruleTarget r output) vals)
    | none => Except.error ()
  else if r.rule_type = "range" then
    match r.min_value with
    | some m =>
      match ruleTarget r output with
      | PyVal.num q =>
        if q < m then Except.ok false else checkMax (PyVal.num q) r
      | _ => Except.error ()
    | none => checkMax (ruleTarget r output) r
  else Except.ok true

/-- Exceptions validate_output can raise: a rule exception re-raised in
strict mode, or the ValueError carrying the violation messages. -/
inductive PyExc where
  | ruleError
  | valueError (violations : List String)
deriving DecidableEq

instance {ε α : Type} [DecidableEq ε] [DecidableEq α] : DecidableEq (Except ε α) :=
  fun x y =>
    match x, y with
    | Except.ok a, Except.ok b =>
      if h : a = b then isTrue (by rw [h]) else isFalse (by simp [h])
    | Except.error e, Except.error f =>
      if h : e = f then isTrue (by rw [h]) else isFalse (by simp [h])
    | Except.ok _, Except.error _ => isFalse (by simp)
    | Except.error _, Except.ok _ => isFalse (by simp)

/-- The rule loop of validate_output: collect the names of violated
rules in order; an exception inside a rule is re-raised in strict mode
and logged-and-skipped otherwise. -/
def collectViolations (matchO : String → String → Bool) (mode : ValidationMode)
    (output : PyVal) : List GuardrailRule → Except PyExc (List String)
  | [] => Except.ok []
  | r :: rs =>
    match applyRule matchO output r with
    | Except.ok true => collectViolations matchO mode output rs
    | Except.ok false =>
      match collectViolations matchO mode output rs with
      | Except.ok vs => Except.ok (r.name :: vs)
      | Except.error e => Except.error e
    | Except.error _ =>
      if mode = ValidationMode.strict then Except.error PyExc.ruleError
      else collectViolations matchO mode output rs

/-- The mode and configured rule set of an OutputValidator. -/
structure OutputValidator where
  mode : ValidationMode
  rules : List GuardrailRule

/-- OutputValidator.validate_output: disabled mode checks nothing;
otherwise all rules are applied, and a non-empty violation list raises
ValueError in strict mode and returns False in warning mode. -/
def validate_output (matchO : String → String → Bool) (v : OutputValidator)
    (output : PyVal) : Except PyExc Bool :=
  if v.mode = ValidationMode.disabled then Except.ok true
  else
    match collectViolations matchO v.mode output v.rules with
    | Except.error e => Except.error e
    | Except.ok [] => Except.ok true
    | Except.ok (vi :: vs) =>
      if v.mode = ValidationMode.strict then Except.error (PyExc.valueError (vi :: vs))
      else Except.ok false

/-- The issues validate_reconfigure_input can report, one constructor
per constraint, carrying the offending value exactly as the Python
f-string message does. -/
inductive ReconfigIssue where
  | invalidUE (ue : String)
  | value1OutOfRange (v : Int)
  | value2OutOfRange (v : Int)
  | sumNot100 (total : Int)
deriving DecidableEq

/-- Python str.upper (the UE identifiers involved are ASCII). -/
def pyUpper (s : String) : String :=
  String.mk (s.data.map Char.toUpper)

/-- InputValidator.validate_reconfigure_input: accumulate one issue per
violated constraint (UE known up to upper-casing, both values in
[0, 100], values summing to 100) and report validity as emptiness of
the issue list. -/
def validate_reconfigure_input (ue : String) (value_1_old value_2_old : Int) :
    Bool × List ReconfigIssue :=
  let issues0 : List ReconfigIssue := []
  let issues1 := if ¬(pyUpper ue = "UE1" ∨ pyUpper ue = "UE2") then
      issues0 ++ [ReconfigIssue.invalidUE ue]
    else issues0
  let issues2 := if ¬(0 ≤ value_1_old ∧ value_1_old ≤ 100) then
      issues1 ++ [ReconfigIssue.value1OutOfRange value_1_old]
    else issues1
  let issues3 := if ¬(0 ≤ value_2_old ∧ value_2_old ≤ 100) then
      issues2 ++ [ReconfigIssue.value2OutOfRange value_2_old]
    else issues2
  let issues4 := if value_1_old + value_2_old ≠ 100 then
      issues3 ++ [ReconfigIssue.sumNot100 (value_1_old + value_2_old)]
    else issues3
  (issues4.isEmpty, issues4)

/-! Helper lemmas about the detector. -/

lemma highLossUEs_eq_nil {rows : List Row}
    (h : ∀ r ∈ rows, r.max_loss ≤ PACKET_LOSS_THRESHOLD) :
    highLossUEs rows = [] := by
  rw [highLossUEs, List.filter_eq_nil_iff]
  intro r hr
  simp only [decide_eq_true_eq, not_lt]
  exact h r hr

lemma mem_highLossUEs {rows : List Row} {r : Row} :
    r ∈ highLossUEs rows ↔ r ∈ rows ∧ PACKET_LOSS_THRESHOLD < r.max_loss := by
  simp [highLossUEs, List.mem_filter]

lemma head_insertRow (r : Row) (l : List Row) :
    (insertRow r l).head? =
      some (match l.head? with
            | none => r
            | some y => if r.max_loss < y.max_loss then y else r) := by
  cases l with
  | nil => rfl
  | cons y ys => by_cases h : r.max_loss < y.max_loss <;> simp [insertRow, h]

lemma head_sortByMaxLossDesc (l : List Row) :
    (sortByMaxLossDesc l).head? = firstMax l := by
  induction l with
  | nil => rfl
  | cons x xs ih =>
    rw [sortByMaxLossDesc, head_insertRow, ih]
    cases hm : firstMax xs with
    | none => simp [firstMax, hm]
    | some m =>
      rcases le_or_lt m.max_loss x.max_loss with h | h
      · simp [firstMax, hm, not_lt.mpr h, h]
      · simp [firstMax, hm, h, not_le.mpr h]

lemma firstMax_eq_none {l : List Row} (h : firstMax l = none) : l = [] := by
  cases l with
  | nil => rfl
  | cons x xs =>
    exfalso
    cases hm : firstMax xs <;> simp only [firstMax, hm] at h
    · exact Option.noConfusion h
    · split at h <;> exact Option.noConfusion h

lemma firstMax_spec :
    ∀ {l : List Row} {m : Row}, firstMax l = some m →
      ∃ l1 l2, l = l1 ++ m :: l2 ∧ (∀ r ∈ l1, r.max_loss < m.max_loss) ∧
        (∀ r ∈ l, r.max_loss ≤ m.max_loss) := by
  intro l
  induction l with
  | nil => intro m h; exact absurd h (by simp [firstMax])
  | cons x xs ih =>
    intro m h
    cases hm : firstMax xs with
    | none =>
      simp only [firstMax, hm] at h
      obtain rfl : x = m := Option.some.inj h
      have hxs : xs = [] := firstMax_eq_none hm
      subst hxs
      exact ⟨[], [], rfl, by simp, by simp⟩
    | some m0 =>
      simp only [firstMax, hm] at h
      obtain ⟨l1, l2, heq, hlt, hle⟩ := ih hm
      by_cases hc : m0.max_loss ≤ x.max_loss
      · rw [if_pos hc] at h
        obtain rfl : x = m := Option.some.inj h
        refine ⟨[], xs, rfl, by simp, ?_⟩
        intro r hr
        rcases List.mem_cons.mp hr with rfl | hr
        · exact le_refl _
        · exact le_trans (hle r hr) hc
      · rw [if_neg hc] at h
        obtain rfl : m0 = m := Option.some.inj h
        refine ⟨x :: l1, l2, by rw [heq, List.cons_append], ?_, ?_⟩
        · intro r hr
          rcases List.mem_cons.mp hr with rfl | hr
          · exact not_le.mp hc
          · exact hlt r hr
        · intro r hr
          rcases List.mem_cons.mp hr with rfl | hr
          · exact le_of_lt (not_le.mp hc)
          · exact hle r hr

/-! Helper lemmas about the reconfiguration tool. -/

lemma reconfigure_network_success {env : Nat → CmdOutcome} (ue : String) (v1 v2 : Int)
    (h0 : isSuccess (env 0) = true) (h1 : isSuccess (env 1) = true) :
    reconfigure_network env ue v1 v2 =
      ⟨[["20", "20"], targetConfig ue], 10, pyStrList (targetConfig ue)⟩ := by
  cases he0 : env 0 with
  | success s0 e0 =>
    cases he1 : env 1 with
    | success s1 e1 => simp [reconfigure_network, he0, he1]
    | nonzeroExit c s e => rw [he1] at h1; simp [isSuccess] at h1
    | timeout s e => rw [he1] at h1; simp [isSuccess] at h1
  | nonzeroExit c s e => rw [he0] at h0; simp [isSuccess] at h0
  | timeout s e => rw [he0] at h0; simp [isSuccess] at h0

lemma reconfigure_network_fail0 {env : Nat → CmdOutcome} (ue : String) (v1 v2 : Int)
    (h0 : isSuccess (env 0) = false) :
    (reconfigure_network env ue v1 v2).invocations = [["20", "20"]] ∧
    (reconfigure_network env ue v1 v2).settleDelay = 0 ∧
    ((reconfigure_network env ue v1 v2).result = "Reconfiguration unsuccessful" ∨
      (reconfigure_network env ue v1 v2).result = "Reconfiguration unsuccessful - timeout") := by
  cases he0 : env 0 with
  | success s0 e0 => rw [he0] at h0; simp [isSuccess] at h0
  | nonzeroExit c s e => simp [reconfigure_network, he0]
  | timeout s e => simp [reconfigure_network, he0]

lemma reconfigure_network_fail1 {env : Nat → CmdOutcome} (ue : String) (v1 v2 : Int)
    (h0 : isSuccess (env 0) = true) (h1 : isSuccess (env 1) = false) :
    (reconfigure_network env ue v1 v2).invocations = [["20", "20"], targetConfig ue] ∧
    (reconfigure_network env ue v1 v2).settleDelay = 0 ∧
    ((reconfigure_network env ue v1 v2).result = "Reconfiguration unsuccessful" ∨
      (reconfigure_network env ue v1 v2).result = "Reconfiguration unsuccessful - timeout") := by
  cases he0 : env 0 with
  | success s0 e0 =>
    cases he1 : env 1 with
    | success s1 e1 => rw [he1] at h1; simp [isSuccess] at h1
    | nonzeroExit c s e => simp [reconfigure_network, he0, he1]
    | timeout s e => simp [reconfigure_network, he0, he1]
  | nonzeroExit c s e => rw [he0] at h0; simp [isSuccess] at h0
  | timeout s e => rw [he0] at h0; simp [isSuccess] at h0

/-- C1: for every sample set in the trailing window in which no
entity's maximum loss percentage exceeds the threshold (1.5 percent),
the detection pass escalates nothing (detect returns no snapshot) and
the loop waits the poll interval (10 seconds) and repeats. -/
theorem detect_quiet_below_threshold (st : ControlState) (rows : List Row)
    (h : ∀ r ∈ rows, r.max_loss ≤ PACKET_LOSS_THRESHOLD) :
    detect rows = none ∧
    MonitoringAgent st rows = MonitorOutcome.wait CHECK_INTERVAL := by
  have hnil := highLossUEs_eq_nil h
  have hdet : detect rows = none := by simp [detect, hnil]
  refine ⟨hdet, ?_⟩
  by_cases he : rows.isEmpty <;> simp [MonitoringAgent, he, hdet]

/-- Witness for C1: a single entity with 1 percent max loss is not
escalated and the loop waits 10 seconds. -/
theorem detect_quiet_below_threshold_witness :
    detect [⟨"UE1", 1, 1, 5⟩] = none ∧
    MonitoringAgent initialState [⟨"UE1", 1, 1, 5⟩] =
      MonitorOutcome.wait CHECK_INTERVAL :=
  detect_quiet_below_threshold initialState [⟨"UE1", 1, 1, 5⟩] (by decide)

/-- C2: for every sample set in which at least one entity exceeds the
loss threshold, the detection pass escalates exactly one snapshot: the
first row, in input order, among those with the greatest max-loss value
of the filtered set (so the selection is deterministic and ties are
broken by stable input order), and the escalated state carries only
that snapshot. -/
theorem detect_selects_highest_loss (st : ControlState) (rows : List Row)
    (h : ∃ r ∈ rows, PACKET_LOSS_THRESHOLD < r.max_loss) :
    ∃ top l1 l2,
      detect rows = some (mkSnapshot top) ∧
      highLossUEs rows = l1 ++ top :: l2 ∧
      (∀ r ∈ l1, r.max_loss < top.max_loss) ∧
      (∀ r ∈ highLossUEs rows, r.max_loss ≤ top.max_loss) ∧
      PACKET_LOSS_THRESHOLD < top.max_loss ∧
      ∃ st2, MonitoringAgent st rows = MonitorOutcome.escalate (mkSnapshot top) st2 ∧
        st2.files = some (mkSnapshot top) := by
  obtain ⟨r0, hr0, hgt⟩ := h
  have hmem : r0 ∈ highLossUEs rows := mem_highLossUEs.mpr ⟨hr0, hgt⟩
  have hne : highLossUEs rows ≠ [] := List.ne_nil_of_mem hmem
  have hfalse : (highLossUEs rows).isEmpty = false := by
    cases hcase : highLossUEs rows with
    | nil => exact absurd hcase hne
    | cons a tl => rfl
  cases hfm : firstMax (highLossUEs rows) with
  | none => exact absurd (firstMax_eq_none hfm) hne
  | some top =>
    have hhead := head_sortByMaxLossDesc (highLossUEs rows)
    rw [hfm] at hhead
    cases hs : sortByMaxLossDesc (highLossUEs rows) with
    | nil => rw [hs] at hhead; exact absurd hhead (by simp)
    | cons a rest =>
      rw [hs] at hhead
      obtain rfl : a = top := by simpa using hhead
      obtain ⟨l1, l2, heq, hlt, hle⟩ := firstMax_spec hfm
      have hdet : detect rows = some (mkSnapshot a) := by
        simp [detect, hfalse, hs]
      have hrowsne : rows.isEmpty = false := by
        cases hcase : rows with
        | nil => rw [hcase] at hr0; exact absurd hr0 (by simp)
        | cons x tl => rfl
      have htop : PACKET_LOSS_THRESHOLD < a.max_loss := by
        have : a ∈ highLossUEs rows := by
          rw [heq]; exact List.mem_append.mpr (Or.inr (List.mem_cons_self _ _))
        exact (mem_highLossUEs.mp this).2
      refine ⟨a, l1, l2, hdet, heq, hlt, hle, htop, ?_⟩
      refine ⟨⟨some (st.start.getD 0), some (mkSnapshot a),
        some (st.config_value.getD ["50", "50"]), some (st.count.getD 0),
        some (st.consent.getD "yes")⟩, ?_, rfl⟩
      simp [MonitoringAgent, hrowsne, hdet]

/-- Witness for C2: with UE1 and UE2 tied at 2 percent max loss, the
detector escalates UE1, the first in input order. -/
theorem detect_selects_highest_loss_witness :
    (∃ top l1 l2,
      detect [⟨"UE1", 1, 2, 5⟩, ⟨"UE2", 1, 2, 5⟩] = some (mkSnapshot top) ∧
      highLossUEs [⟨"UE1", 1, 2, 5⟩, ⟨"UE2", 1, 2, 5⟩] = l1 ++ top :: l2 ∧
      (∀ r ∈ l1, r.max_loss < top.max_loss) ∧
      (∀ r ∈ highLossUEs [⟨"UE1", 1, 2, 5⟩, ⟨"UE2", 1, 2, 5⟩],
        r.max_loss ≤ top.max_loss) ∧
      PACKET_LOSS_THRESHOLD < top.max_loss ∧
      ∃ st2, MonitoringAgent initialState [⟨"UE1", 1, 2, 5⟩, ⟨"UE2", 1, 2, 5⟩] =
          MonitorOutcome.escalate (mkSnapshot top) st2 ∧
        st2.files = some (mkSnapshot top)) ∧
    detect [⟨"UE1", 1, 2, 5⟩, ⟨"UE2", 1, 2, 5⟩] = some ⟨"UE1", 1, 2, 5⟩ :=
  ⟨detect_selects_highest_loss initialState [⟨"UE1", 1, 2, 5⟩, ⟨"UE2", 1, 2, 5⟩]
    (by decide), by decide⟩

/-- C3 (code evaluation at the failing input): when the first script
invocation exits non-zero, the tool does surface the explicit failure
string, but the ConfigurationAgent nevertheless increments the
reconfiguration count from 0 to 1 and replaces the configuration pair
(50, 50) with the parsed failure string, contradicting the claim that
the pair is preserved and the count not incremented. -/
theorem failure_path_updates_state :
    ConfigurationAgent 5 (fun _ => CmdOutcome.nonzeroExit 1 "" "") "UE1" "yes"
      ⟨some 0, some ⟨"UE1", 2, 2, 5⟩, some ["50", "50"], some 0, some "yes"⟩ =
    some ⟨⟨some 0, some ⟨"UE1", 2, 2, 5⟩, some ["Reconfiguration unsuccessful"],
           some 1, some "yes"⟩,
          ⟨[["20", "20"]], 0, "Reconfiguration unsuccessful"⟩, "UE1"⟩ := by
  decide

/-- C4: the mapping from entity id to target configuration pair is a
pure function of the entity identity, independent of the old
configuration values: UE1 maps to (80, 20), any other entity to
(20, 80); two successful reconfigurations of the same entity, whatever
old values they carry, return the same target configuration. -/
theorem target_split_pure_function :
    targetConfig "UE1" = ["80", "20"] ∧
    (∀ ue, ue ≠ "UE1" → targetConfig ue = ["20", "80"]) ∧
    (∀ (env env2 : Nat → CmdOutcome) (ue : String) (v1 v2 w1 w2 : Int),
      isSuccess (env 0) = true → isSuccess (env 1) = true →
      isSuccess (env2 0) = true → isSuccess (env2 1) = true →
      (reconfigure_network env ue v1 v2).result =
        (reconfigure_network env2 ue w1 w2).result) := by
  refine ⟨by decide, ?_, ?_⟩
  · intro ue h
    simp [targetConfig, h]
  · intro env env2 ue v1 v2 w1 w2 h0 h1 h2 h3
    rw [reconfigure_network_success ue v1 v2 h0 h1,
      reconfigure_network_success ue w1 w2 h2 h3]

/-- Witness for C4: two successful runs for UE2 with different old
values return the same result. -/
theorem target_split_pure_function_witness :
    (reconfigure_network (fun _ => CmdOutcome.success "" "") "UE2" 50 50).result =
    (reconfigure_network (fun _ => CmdOutcome.success "" "") "UE2" 30 70).result :=
  target_split_pure_function.2.2 (fun _ => CmdOutcome.success "" "")
    (fun _ => CmdOutcome.success "" "") "UE2" 50 50 30 70 rfl rfl rfl rfl

/-- C5: every reconfiguration apply invokes the external command first
with the fixed reset arguments (20, 20); the second invocation, with
the target split, happens exactly when the first succeeded; both must
succeed for the tool to report the target as applied, in which case it
waits the 10-second settle delay before returning; on any failure the
settle delay is skipped and a failure string is returned. -/
theorem reconfigure_network_protocol (env : Nat → CmdOutcome) (ue : String)
    (v1 v2 : Int) :
    (reconfigure_network env ue v1 v2).invocations.head? = some ["20", "20"] ∧
    (isSuccess (env 0) = true → isSuccess (env 1) = true →
      (reconfigure_network env ue v1 v2).invocations = [["20", "20"], targetConfig ue] ∧
      (reconfigure_network env ue v1 v2).result = pyStrList (targetConfig ue) ∧
      (reconfigure_network env ue v1 v2).settleDelay = 10) ∧
    (isSuccess (env 0) = false →
      (reconfigure_network env ue v1 v2).invocations = [["20", "20"]] ∧
      (reconfigure_network env ue v1 v2).settleDelay = 0 ∧
      ((reconfigure_network env ue v1 v2).result = "Reconfiguration unsuccessful" ∨
        (reconfigure_network env ue v1 v2).result = "Reconfiguration unsuccessful - timeout")) ∧
    (isSuccess (env 0) = true → isSuccess (env 1) = false →
      (reconfigure_network env ue v1 v2).invocations = [["20", "20"], targetConfig ue] ∧
      (reconfigure_network env ue v1 v2).settleDelay = 0 ∧
      ((reconfigure_network env ue v1 v2).result = "Reconfiguration unsuccessful" ∨
        (reconfigure_network env ue v1 v2).result = "Reconfiguration unsuccessful - timeout")) := by
  refine ⟨?_, ?_, ?_, ?_⟩
  · cases he0 : env 0 with
    | success s0 e0 =>
      cases he1 : env 1 <;> simp [reconfigure_network, he0, *]
    | nonzeroExit c s e => simp [reconfigure_network, he0]
    | timeout s e => simp [reconfigure_network, he0]
  · intro h0 h1
    rw [reconfigure_network_success ue v1 v2 h0 h1]
    exact ⟨rfl, rfl, rfl⟩
  · intro h0
    exact reconfigure_network_fail0 ue v1 v2 h0
  · intro h0 h1
    exact reconfigure_network_fail1 ue v1 v2 h0 h1

/-- Witness for C5: a fully successful run for UE1 performs the reset
then the 80/20 target, returns the target and sleeps 10 seconds. -/
theorem reconfigure_network_protocol_witness :
    (reconfigure_network (fun _ => CmdOutcome.success "" "") "UE1" 50 50).invocations =
      [["20", "20"], targetConfig "UE1"] ∧
    (reconfigure_network (fun _ => CmdOutcome.success "" "") "UE1" 50 50).result =
      pyStrList (targetConfig "UE1") ∧
    (reconfigure_network (fun _ => CmdOutcome.success "" "") "UE1" 50 50).settleDelay = 10 :=
  (reconfigure_network_protocol (fun _ => CmdOutcome.success "" "") "UE1" 50 50).2.1
    rfl rfl

/-! Inversion lemmas for the two agent steps. -/

lemma MonitoringAgent_escalate_inv {st : ControlState} {rows : List Row}
    {snap : AnomalySnapshot} {st2 : ControlState}
    (h : MonitoringAgent st rows = MonitorOutcome.escalate snap st2) :
    st2.config_value = some (st.config_value.getD ["50", "50"]) ∧
    st2.count = some (st.count.getD 0) ∧
    st2.files = some snap := by
  by_cases he : rows.isEmpty
  · simp [MonitoringAgent, he] at h
  · cases hd : detect rows with
    | none => simp [MonitoringAgent, he, hd] at h
    | some s =>
      simp only [MonitoringAgent, he, if_false, hd, ite_false, Bool.false_eq_true] at h
      rw [MonitorOutcome.escalate.injEq] at h
      obtain ⟨rfl, rfl⟩ := h
      exact ⟨rfl, rfl, rfl⟩

lemma ConfigurationAgent_inv {ia : Nat} {env : Nat → CmdOutcome} {oans opans : String}
    {st : ControlState} {res : ConfigResult}
    (h : ConfigurationAgent ia env oans opans st = some res) :
    ∃ metrics a b rest count0,
      st.files = some metrics ∧
      st.config_value = some (a :: b :: rest) ∧
      st.count = some count0 ∧
      res.ueUsed = cleanedUE oans metrics.ue ∧
      res.toolRun = reconfigure_network env (cleanedUE oans metrics.ue)
        ((strToInt? a).getD 0) ((strToInt? b).getD 0) ∧
      res.newState.config_value = some (parseToolOutput res.toolRun.result) ∧
      res.newState.count = some (count0 + 1) := by
  obtain ⟨s0, f0, c0, n0, cs0⟩ := st
  cases f0 with
  | none => simp [ConfigurationAgent] at h
  | some metrics =>
    cases c0 with
    | none => simp [ConfigurationAgent] at h
    | some cv =>
      cases cv with
      | nil => simp [ConfigurationAgent] at h
      | cons a tl =>
        cases tl with
        | nil => simp [ConfigurationAgent] at h
        | cons b rest =>
          cases n0 with
          | none => simp [ConfigurationAgent] at h
          | some count0 =>
            simp only [ConfigurationAgent, Option.some.injEq] at h
            refine ⟨metrics, a, b, rest, count0, rfl, rfl, rfl, ?_, ?_, ?_, ?_⟩ <;>
              rw [← h]

/-- Count bookkeeping of one step: the monitoring agent carries the
count over, the configuration agent increments it. -/
lemma Step_count_mono {st st2 : ControlState} (h : Step st st2) :
    st.count.getD 0 ≤ st2.count.getD 0 := by
  cases h with
  | monitor st rows snap st2 hm =>
    obtain ⟨_, hcnt, _⟩ := MonitoringAgent_escalate_inv hm
    rw [hcnt]
    exact le_refl _
  | config ia env oans opans st res hc =>
    obtain ⟨m, a, b, rest, c0, _, _, hcount, _, _, _, hcount2⟩ := ConfigurationAgent_inv hc
    rw [hcount, hcount2]
    exact Nat.le_succ _

lemma configOK_targetConfig (ue : String) : configOK (targetConfig ue) = true := by
  by_cases h : ue = "UE1"
  · simp only [targetConfig, if_pos h]; decide
  · simp only [targetConfig, if_neg h]; decide

lemma parse_pyStrList_target (ue : String) :
    parseToolOutput (pyStrList (targetConfig ue)) = targetConfig ue := by
  by_cases h : ue = "UE1"
  · simp only [targetConfig, if_pos h]; decide
  · simp only [targetConfig, if_neg h]; decide

lemma StepOK_preserves_configOK {st st2 : ControlState} (h : StepOK st st2)
    (hst : configOK (st.config_value.getD ["50", "50"]) = true) :
    configOK (st2.config_value.getD ["50", "50"]) = true := by
  cases h with
  | monitor st rows snap st2 hm =>
    obtain ⟨hcv, _, _⟩ := MonitoringAgent_escalate_inv hm
    rw [hcv]
    exact hst
  | config ia env oans opans st res h0 h1 hc =>
    obtain ⟨m, a, b, rest, c0, _, _, _, _, hrun, hcv, _⟩ := ConfigurationAgent_inv hc
    rw [hcv, hrun, reconfigure_network_success _ _ _ h0 h1]
    simp only [Option.getD_some]
    rw [parse_pyStrList_target]
    exact configOK_targetConfig _

/-- C6 (amended): along runs whose reconfiguration commands all
succeed, every reachable state carries a configuration pair of two
non-negative values summing to 100; and along arbitrary steps,
successful or not, the cumulative count is monotonically
non-decreasing.  (The unamended claim fails on failed commands: see the
counterexample.) -/
theorem control_state_invariant :
    (∀ st, ReachableOK st → configOK (st.config_value.getD ["50", "50"]) = true) ∧
    (∀ st st2, Step st st2 → st.count.getD 0 ≤ st2.count.getD 0) := by
  constructor
  · intro st h
    induction h with
    | refl => decide
    | tail hsteps hstep ih => exact StepOK_preserves_configOK hstep ih
  · intro st st2 h
    exact Step_count_mono h

/-- Witness for C6 (amended): the initial default pair satisfies the
invariant and one concrete monitoring step does not decrease the
count. -/
theorem control_state_invariant_witness :
    configOK (initialState.config_value.getD ["50", "50"]) = true ∧
    initialState.count.getD 0 ≤
      (ControlState.mk (some 0) (some ⟨"UE1", 2, 2, 5⟩) (some ["50", "50"])
        (some 0) (some "yes")).count.getD 0 :=
  ⟨control_state_invariant.1 initialState Relation.ReflTransGen.refl,
   control_state_invariant.2 initialState _
     (Step.monitor initialState [⟨"UE1", 2, 2, 5⟩] ⟨"UE1", 2, 2, 5⟩
       ⟨some 0, some ⟨"UE1", 2, 2, 5⟩, some ["50", "50"], some 0, some "yes"⟩
       (by decide))⟩

/-- Counterexample to C6 as stated: after one escalation and one
reconfiguration cycle whose first command exits non-zero, the loop
reaches a state whose config_value is the single parsed failure string,
not a pair of values summing to 100. -/
theorem control_state_counterexample :
    Reachable ⟨some 0, some ⟨"UE1", 2, 2, 5⟩, some ["Reconfiguration unsuccessful"],
      some 1, some "yes"⟩ ∧
    configOK ((ControlState.mk (some 0) (some ⟨"UE1", 2, 2, 5⟩)
      (some ["Reconfiguration unsuccessful"]) (some 1)
      (some "yes")).config_value.getD ["50", "50"]) = false := by
  constructor
  · have h1 : Step initialState
        ⟨some 0, some ⟨"UE1", 2, 2, 5⟩, some ["50", "50"], some 0, some "yes"⟩ :=
      Step.monitor initialState [⟨"UE1", 2, 2, 5⟩] ⟨"UE1", 2, 2, 5⟩
        ⟨some 0, some ⟨"UE1", 2, 2, 5⟩, some ["50", "50"], some 0, some "yes"⟩
        (by decide)
    have h2 : Step ⟨some 0, some ⟨"UE1", 2, 2, 5⟩, some ["50", "50"], some 0, some "yes"⟩
        ⟨some 0, some ⟨"UE1", 2, 2, 5⟩, some ["Reconfiguration unsuccessful"],
          some 1, some "yes"⟩ :=
      Step.config 5 (fun _ => CmdOutcome.nonzeroExit 1 "" "") "UE1" "yes"
        ⟨some 0, some ⟨"UE1", 2, 2, 5⟩, some ["50", "50"], some 0, some "yes"⟩
        ⟨⟨some 0, some ⟨"UE1", 2, 2, 5⟩, some ["Reconfiguration unsuccessful"],
            some 1, some "yes"⟩,
          ⟨[["20", "20"]], 0, "Reconfiguration unsuccessful"⟩, "UE1"⟩
        (by decide)
    exact Relation.ReflTransGen.tail (Relation.ReflTransGen.tail
      Relation.ReflTransGen.refl h1) h2
  · decide

/-- C7: whenever the oracle's (stripped) answer differs from the entity
id detected by the monitoring agent, the configuration agent uses the
detected entity id for the reconfiguration: the UE recorded as used and
the tool run both carry the detected id, not the oracle's. -/
theorem detector_overrides_oracle (ia : Nat) (env : Nat → CmdOutcome)
    (oans opans : String) (st : ControlState) (snap : AnomalySnapshot)
    (res : ConfigResult)
    (hf : st.files = some snap)
    (h : ConfigurationAgent ia env oans opans st = some res)
    (hdiff : pyStripWS oans ≠ snap.ue) :
    res.ueUsed = snap.ue ∧
    ∃ v1 v2, res.toolRun = reconfigure_network env snap.ue v1 v2 := by
  obtain ⟨m, a, b, rest, c0, hm, _, _, hue, hrun, _, _⟩ := ConfigurationAgent_inv h
  rw [hf] at hm
  obtain rfl : snap = m := Option.some.inj hm
  have hclean : cleanedUE oans snap.ue = snap.ue := by
    rw [cleanedUE, if_pos hdiff]
  constructor
  · rw [hue, hclean]
  · exact ⟨_, _, by rw [hrun, hclean]⟩

/-- Witness for C7: the oracle answers UE1 while the detector found
UE2; the reconfiguration is performed for UE2. -/
theorem detector_overrides_oracle_witness :
    (ConfigResult.mk
      ⟨some 0, some ⟨"UE2", 2, 2, 5⟩, some ["20", "80"], some 1, some "yes"⟩
      ⟨[["20", "20"], ["20", "80"]], 10, pyStrList ["20", "80"]⟩ "UE2").ueUsed = "UE2" ∧
    ∃ v1 v2,
      (ConfigResult.mk
        ⟨some 0, some ⟨"UE2", 2, 2, 5⟩, some ["20", "80"], some 1, some "yes"⟩
        ⟨[["20", "20"], ["20", "80"]], 10, pyStrList ["20", "80"]⟩ "UE2").toolRun =
      reconfigure_network (fun _ => CmdOutcome.success "" "") "UE2" v1 v2 :=
  detector_overrides_oracle 5 (fun _ => CmdOutcome.success "" "") "UE1" "yes"
    ⟨some 0, some ⟨"UE2", 2, 2, 5⟩, some ["50", "50"], some 0, some "yes"⟩
    ⟨"UE2", 2, 2, 5⟩ _ rfl (by decide) (by decide)

/-! Helper lemmas about the guardrail layer. -/

lemma collectViolations_ok_of_ne_strict (matchO : String → String → Bool)
    (mode : ValidationMode) (output : PyVal)
    (hmode : mode ≠ ValidationMode.strict) :
    ∀ rs, ∃ vs, collectViolations matchO mode output rs = Except.ok vs := by
  intro rs
  induction rs with
  | nil => exact ⟨[], rfl⟩
  | cons r rs ih =>
    obtain ⟨vs, hvs⟩ := ih
    cases happ : applyRule matchO output r with
    | ok b =>
      cases b
      · exact ⟨r.name :: vs, by simp [collectViolations, happ, hvs]⟩
      · exact ⟨vs, by simp [collectViolations, happ, hvs]⟩
    | error e => exact ⟨vs, by simp [collectViolations, happ, hmode, hvs]⟩

lemma collectViolations_ne_nil (matchO : String → String → Bool)
    (mode : ValidationMode) (output : PyVal) :
    ∀ rs vs, collectViolations matchO mode output rs = Except.ok vs →
      (∃ r ∈ rs, applyRule matchO output r = Except.ok false) → vs ≠ [] := by
  intro rs
  induction rs with
  | nil =>
    intro vs h hex
    simp at hex
  | cons r rs ih =>
    intro vs h hex
    cases happ : applyRule matchO output r with
    | ok b =>
      cases b with
      | false =>
        simp only [collectViolations, happ] at h
        cases hrec : collectViolations matchO mode output rs with
        | ok vs2 =>
          rw [hrec] at h
          obtain rfl : r.name :: vs2 = vs := Except.ok.inj h
          simp
        | error e =>
          rw [hrec] at h
          exact Except.noConfusion h
      | true =>
        simp only [collectViolations, happ] at h
        rcases hex with ⟨r2, hr2, hviol⟩
        rcases List.mem_cons.mp hr2 with rfl | hr2
        · rw [happ] at hviol
          exact Bool.noConfusion (Except.ok.inj hviol)
        · exact ih vs h ⟨r2, hr2, hviol⟩
    | error e =>
      simp only [collectViolations, happ] at h
      by_cases hs : mode = ValidationMode.strict
      · rw [if_pos hs] at h
        exact Except.noConfusion h
      · rw [if_neg hs] at h
        rcases hex with ⟨r2, hr2, hviol⟩
        rcases List.mem_cons.mp hr2 with rfl | hr2
        · rw [happ] at hviol
          exact Except.noConfusion hviol
        · exact ih vs h ⟨r2, hr2, hviol⟩

lemma collectViolations_all_pass (matchO : String → String → Bool)
    (mode : ValidationMode) (output : PyVal) :
    ∀ rs, (∀ r ∈ rs, applyRule matchO output r = Except.ok true) →
      collectViolations matchO mode output rs = Except.ok [] := by
  intro rs
  induction rs with
  | nil => intro _; rfl
  | cons r rs ih =>
    intro h
    have hr := h r (List.mem_cons_self r rs)
    simp [collectViolations, hr, ih (fun r2 hr2 => h r2 (List.mem_cons_of_mem _ hr2))]

/-- C8: mode semantics of validate_output.  Disabled mode performs no
checks and reports success; warning mode never raises and returns False
as soon as some rule is violated; strict mode raises whenever some rule
is violated; and when every rule passes, every mode returns True. -/
theorem validate_output_mode_semantics (matchO : String → String → Bool)
    (v : OutputValidator) (output : PyVal) :
    (v.mode = ValidationMode.disabled →
      validate_output matchO v output = Except.ok true) ∧
    (v.mode = ValidationMode.warning →
      (∃ b, validate_output matchO v output = Except.ok b) ∧
      ((∃ r ∈ v.rules, applyRule matchO output r = Except.ok false) →
        validate_output matchO v output = Except.ok false)) ∧
    (v.mode = ValidationMode.strict →
      (∃ r ∈ v.rules, applyRule matchO output r = Except.ok false) →
      ∃ e, validate_output matchO v output = Except.error e) ∧
    ((∀ r ∈ v.rules, applyRule matchO output r = Except.ok true) →
      validate_output matchO v output = Except.ok true) := by
  refine ⟨?_, ?_, ?_, ?_⟩
  · intro hm
    simp [validate_output, hm]
  · intro hm
    have hne : v.mode ≠ ValidationMode.strict := by
      rw [hm]; exact fun hh => ValidationMode.noConfusion hh
    have hned : v.mode ≠ ValidationMode.disabled := by
      rw [hm]; exact fun hh => ValidationMode.noConfusion hh
    obtain ⟨vs, hvs⟩ := collectViolations_ok_of_ne_strict matchO v.mode output hne v.rules
    constructor
    · cases vs with
      | nil => exact ⟨true, by simp [validate_output, hned, hvs]⟩
      | cons x xs => exact ⟨false, by simp [validate_output, hned, hvs, hne]⟩
    · intro hex
      have hvne := collectViolations_ne_nil matchO v.mode output v.rules vs hvs hex
      cases vs with
      | nil => exact absurd rfl hvne
      | cons x xs => simp [validate_output, hned, hvs, hne]
  · intro hm hex
    have hned : v.mode ≠ ValidationMode.disabled := by
      rw [hm]; exact fun hh => ValidationMode.noConfusion hh
    cases hcol : collectViolations matchO v.mode output v.rules with
    | error e =>
      rw [hm] at hcol
      exact ⟨e, by simp [validate_output, hm, hcol]⟩
    | ok vs =>
      have hvne := collectViolations_ne_nil matchO v.mode output v.rules vs hcol hex
      cases vs with
      | nil => exact absurd rfl hvne
      | cons x xs =>
        rw [hm] at hcol
        exact ⟨PyExc.valueError (x :: xs), by simp [validate_output, hm, hcol]⟩
  · intro hall
    by_cases hd : v.mode = ValidationMode.disabled
    · simp [validate_output, hd]
    · simp [validate_output, hd,
        collectViolations_all_pass matchO v.mode output v.rules hall]

/-- Witness for C8: in warning mode, a violated enum rule makes the
call return False without raising. -/
theorem validate_output_mode_semantics_witness :
    validate_output (fun _ _ => false)
      ⟨ValidationMode.warning, [⟨"r1", "enum", none, none, none, some ["yes"], none, none⟩]⟩
      (PyVal.str "no") = Except.ok false :=
  ((validate_output_mode_semantics (fun _ _ => false)
    ⟨ValidationMode.warning, [⟨"r1", "enum", none, none, none, some ["yes"], none, none⟩]⟩
    (PyVal.str "no")).2.1 rfl).2
    ⟨⟨"r1", "enum", none, none, none, some ["yes"], none, none⟩,
      List.mem_cons_self _ _, by decide⟩

/-- C9: validate_reconfigure_input returns (True, no issues) exactly
when the upper-cased entity id is UE1 or UE2, both values lie in
[0, 100], and they sum to 100; each violated constraint contributes its
own specific issue to the returned list, so multiple violations
accumulate instead of short-circuiting. -/
theorem validate_reconfigure_input_spec (ue : String) (v1 v2 : Int) :
    ((validate_reconfigure_input ue v1 v2).1 = true ↔
      (validate_reconfigure_input ue v1 v2).2 = []) ∧
    ((validate_reconfigure_input ue v1 v2).2 = [] ↔
      ((pyUpper ue = "UE1" ∨ pyUpper ue = "UE2") ∧
        (0 ≤ v1 ∧ v1 ≤ 100) ∧ (0 ≤ v2 ∧ v2 ≤ 100) ∧ v1 + v2 = 100)) ∧
    (ReconfigIssue.invalidUE ue ∈ (validate_reconfigure_input ue v1 v2).2 ↔
      ¬(pyUpper ue = "UE1" ∨ pyUpper ue = "UE2")) ∧
    (ReconfigIssue.value1OutOfRange v1 ∈ (validate_reconfigure_input ue v1 v2).2 ↔
      ¬(0 ≤ v1 ∧ v1 ≤ 100)) ∧
    (ReconfigIssue.value2OutOfRange v2 ∈ (validate_reconfigure_input ue v1 v2).2 ↔
      ¬(0 ≤ v2 ∧ v2 ≤ 100)) ∧
    (ReconfigIssue.sumNot100 (v1 + v2) ∈ (validate_reconfigure_input ue v1 v2).2 ↔
      ¬(v1 + v2 = 100)) := by
  by_cases h1 : pyUpper ue = "UE1" ∨ pyUpper ue = "UE2" <;>
    by_cases h2 : 0 ≤ v1 ∧ v1 ≤ 100 <;>
    by_cases h3 : 0 ≤ v2 ∧ v2 ≤ 100 <;>
    by_cases h4 : v1 + v2 = 100 <;>
    simp [validate_reconfigure_input, h1, h2, h3, h4]

/-- C10: reconfigure_network compares the UE to UE1 case-sensitively
and validates nothing itself: any UE string other than exactly UE1
(for example ue1 or UE3) is given the (20, 80) split, and on the
success path the tool returns the target split of the second
invocation, never the intermediate (20, 20) reset pair. -/
theorem reconfigure_case_sensitive (env : Nat → CmdOutcome) (ue : String)
    (v1 v2 : Int) :
    (ue ≠ "UE1" → targetConfig ue = ["20", "80"]) ∧
    (ue ≠ "UE1" → isSuccess (env 0) = true → isSuccess (env 1) = true →
      (reconfigure_network env ue v1 v2).result = pyStrList ["20", "80"] ∧
      (reconfigure_network env ue v1 v2).invocations = [["20", "20"], ["20", "80"]]) ∧
    (isSuccess (env 0) = true → isSuccess (env 1) = true →
      (reconfigure_network env ue v1 v2).result = pyStrList (targetConfig ue) ∧
      (reconfigure_network env ue v1 v2).result ≠ pyStrList ["20", "20"]) := by
  have htgt : ue ≠ "UE1" → targetConfig ue = ["20", "80"] := by
    intro h
    simp [targetConfig, h]
  refine ⟨htgt, ?_, ?_⟩
  · intro h h0 h1
    rw [reconfigure_network_success ue v1 v2 h0 h1, htgt h]
    exact ⟨rfl, rfl⟩
  · intro h0 h1
    rw [reconfigure_network_success ue v1 v2 h0 h1]
    refine ⟨rfl, ?_⟩
    by_cases h : ue = "UE1"
    · simp only [targetConfig, if_pos h]; decide
    · simp only [targetConfig, if_neg h]; decide

/-- Witness for C10: the lower-case string ue1 is not UE1, so a
successful run applies and returns the (20, 80) split. -/
theorem reconfigure_case_sensitive_witness :
    (reconfigure_network (fun _ => CmdOutcome.success "" "") "ue1" 50 50).result =
      pyStrList ["20", "80"] ∧
    (reconfigure_network (fun _ => CmdOutcome.success "" "") "ue1" 50 50).invocations =
      [["20", "20"], ["20", "80"]] :=
  (reconfigure_case_sensitive (fun _ => CmdOutcome.success "" "") "ue1" 50 50).2.1
    (by decide) rfl rfl

end Slicing
